import Mathlib

/-!
Verification of the `txnbuild.SetOptions` operation builder (package
`exp/txnbuild`).  The development embeds the most complete variant of the
builder: the one providing inflation destination, clear/set authorization
flags, master weight, the three thresholds, home domain and signer handling.

Go strings are modelled as byte sequences (`List Char`, one entry per byte),
machine `uint32` values as natural numbers reduced modulo `2 ^ 32` at the
coercion points of the source, Go `nil`-able pointers as `Option`, and a Go
function returning `(value, error)` as a pair whose second component is an
optional error message.  A nil-pointer dereference (a Go runtime panic) is a
distinguished outcome of the builder.
-/

namespace Txnbuild

/-- A Go string, one list entry per byte of the string. -/
abbrev GoStr := List Char

/-- `xdr.Uint32`: a 32-bit machine word, carried as a natural number. -/
abbrev Uint32 := Nat

/-- The modulus of `uint32` arithmetic. -/
def w32 : Nat := 2 ^ 32

/-- `xdr.AccountId`: the binary account key produced by the address codec.
The internals of the key are opaque to the builder; a byte string suffices. -/
structure AccountId where
  key : GoStr
deriving DecidableEq

/-- The Go zero value of `xdr.AccountId`. -/
def AccountId.zero : AccountId := ⟨[]⟩

/-- Modelled from the spec: the `AddressCodec.Resolve(text)` collaborator
(`xdr.AccountId.SetAddress` / `xdr.SignerKey.SetAddress`, which live outside
this fragment).  It is a pure function from the textual reference to either a
binary key or an address error; the spec fixes no further structure, so the
development is parameterized over it. -/
abbrev Codec := GoStr → Except GoStr AccountId

/-- `xdr.Signer`: the encoded signer pair stored in the operation record. -/
structure XdrSigner where
  Key : AccountId
  Weight : Uint32
deriving DecidableEq

/-- `xdr.SetOptionsOp`: the canonical fixed-shape record, one optional slot
per field.  `none` is a Go nil pointer (slot absent from the wire payload). -/
structure SetOptionsOp where
  InflationDest : Option AccountId
  ClearFlags : Option Uint32
  SetFlags : Option Uint32
  MasterWeight : Option Uint32
  LowThreshold : Option Uint32
  MedThreshold : Option Uint32
  HighThreshold : Option Uint32
  HomeDomain : Option GoStr
  Signer : Option XdrSigner
deriving DecidableEq

/-- The Go zero value of `xdr.SetOptionsOp`: every slot nil. -/
def SetOptionsOp.zero : SetOptionsOp := ⟨none, none, none, none, none, none, none, none, none⟩

/-- `txnbuild.Signer`: the caller-facing signer pair.  `Weight` is the
`Threshold` type of the source, a nullable pointer to a `uint32`. -/
structure Signer where
  Address : GoStr
  Weight : Option Uint32
deriving DecidableEq

/-- The Go zero value `Signer{}` used by the non-default test in `handleSigner`. -/
def Signer.zero : Signer := ⟨[], none⟩

/-- `txnbuild.SetOptions`: the caller-facing request, together with the two
private accumulator fields `destAccountID` and `xdrOp` of the source. -/
structure SetOptions where
  destAccountID : AccountId
  InflationDestination : GoStr
  SetAuthorization : List Uint32
  ClearAuthorization : List Uint32
  MasterWeight : Option Uint32
  LowThreshold : Option Uint32
  MediumThreshold : Option Uint32
  HighThreshold : Option Uint32
  HomeDomain : GoStr
  Signer : Signer
  xdrOp : SetOptionsOp
deriving DecidableEq

/-- A fresh request: every caller-facing field at its Go zero value and the
private accumulators at their zero values, as produced by `SetOptions{}`. -/
def SetOptions.fresh : SetOptions :=
  ⟨AccountId.zero, [], [], [], none, none, none, none, [], Signer.zero, SetOptionsOp.zero⟩

/-- `xdr.Operation`: the wire envelope.  `body` is the operation body union;
the Go zero value `xdr.Operation{}` carries no payload. -/
structure Operation where
  body : Option SetOptionsOp
deriving DecidableEq

/-- The Go zero value `xdr.Operation{}` returned on every failure path. -/
def Operation.zero : Operation := ⟨none⟩

/-- Modelled from the spec: the `OperationEnvelope.Wrap(kind, payload)`
collaborator (`xdr.NewOperationBody`, outside this fragment).  It tags the
payload with the set-options operation kind; for the fixed kind/payload pair
used by this builder the spec gives it no failure case. -/
def NewOperationBody (op : SetOptionsOp) : Option SetOptionsOp := some op

/-- The outcome of `BuildXDR`: either a normal Go return of the pair
`(xdr.Operation, error)`, or a runtime panic (nil-pointer dereference). -/
inductive Outcome
  | ret (op : Operation) (e : Option GoStr)
  | panic (msg : GoStr)
deriving DecidableEq

/-- The record payload delivered to the caller on success, and `none` on any
error or panic. -/
def Outcome.payload : Outcome → Option SetOptionsOp
  | .ret op none => op.body
  | .ret _ (some _) => none
  | .panic _ => none

/-- `errors.Wrap(err, msg)`: the wrapped message `msg ++ ": " ++ err`. -/
def wrapErr (msg e : GoStr) : GoStr := msg ++ (": ".toList) ++ e

/-- The message of the Go runtime panic raised by a nil-pointer dereference. -/
def nilDerefMsg : GoStr :=
  ("runtime error: invalid memory address or nil pointer dereference").toList

/-- The error text built by `handleHomeDomain` for an over-long home domain. -/
def homeDomainTooLongMsg : GoStr := ("HomeDomain must be 32 characters or less").toList

/-- The wrapping text used by `BuildXDR` around an inflation-destination error. -/
def inflationWrapMsg : GoStr := ("Failed to set inflation destination address").toList

/-- The wrapping text used by `BuildXDR` around a home-domain error. -/
def homeDomainWrapMsg : GoStr := ("Failed to set home domain").toList

/-- The wrapping text used by `BuildXDR` around a signer error. -/
def signerWrapMsg : GoStr := ("Failed to set signer").toList

/-- The flag-merging loop shared by `handleSetFlags` and `handleClearFlags`:
`var flags xdr.Uint32; for _, flag := range seq { flags = flags | xdr.Uint32(flag) }`.
Each element passes through the `xdr.Uint32` coercion (its unsigned 32-bit
pattern) before being OR-ed into the accumulator. -/
def mergeFlags (l : List Uint32) : Uint32 :=
  l.foldl (fun flags flag => flags ||| flag % w32) 0

/-- `handleInflation`: if the textual reference is non-empty, resolve it; on
codec failure return the error, otherwise store the resolved key in
`destAccountID` and point the `InflationDest` slot at it. -/
def handleInflation (resolve : Codec) (so : SetOptions) : SetOptions × Option GoStr :=
  if so.InflationDestination ≠ [] then
    match resolve so.InflationDestination with
    | .error e => (so, some e)
    | .ok a =>
        ({ so with destAccountID := a,
                   xdrOp := { so.xdrOp with InflationDest := some a } }, none)
  else (so, none)

/-- `handleSetFlags`: OR the listed flags together and, when the sequence is
non-empty, store the merged mask in the `SetFlags` slot. -/
def handleSetFlags (so : SetOptions) : SetOptions :=
  if so.SetAuthorization.length > 0 then
    { so with xdrOp := { so.xdrOp with SetFlags := some (mergeFlags so.SetAuthorization) } }
  else so

/-- `handleClearFlags`: OR the listed flags together and, when the sequence is
non-empty, store the merged mask in the `ClearFlags` slot. -/
def handleClearFlags (so : SetOptions) : SetOptions :=
  if so.ClearAuthorization.length > 0 then
    { so with xdrOp := { so.xdrOp with ClearFlags := some (mergeFlags so.ClearAuthorization) } }
  else so

/-- `handleMasterWeight`: forward the optional master weight when present. -/
def handleMasterWeight (so : SetOptions) : SetOptions :=
  if so.MasterWeight.isSome then
    { so with xdrOp := { so.xdrOp with MasterWeight := so.MasterWeight } }
  else so

/-- `handleLowThreshold`: forward the optional low threshold when present. -/
def handleLowThreshold (so : SetOptions) : SetOptions :=
  if so.LowThreshold.isSome then
    { so with xdrOp := { so.xdrOp with LowThreshold := so.LowThreshold } }
  else so

/-- `handleMediumThreshold`: forward the optional medium threshold when present. -/
def handleMediumThreshold (so : SetOptions) : SetOptions :=
  if so.MediumThreshold.isSome then
    { so with xdrOp := { so.xdrOp with MedThreshold := so.MediumThreshold } }
  else so

/-- `handleHighThreshold`: forward the optional high threshold when present. -/
def handleHighThreshold (so : SetOptions) : SetOptions :=
  if so.HighThreshold.isSome then
    { so with xdrOp := { so.xdrOp with HighThreshold := so.HighThreshold } }
  else so

/-- `handleHomeDomain`: when the home domain is non-empty, reject it with a
fixed error message if `len(so.HomeDomain) > 32` (Go `len`, the byte count),
otherwise store it in the `HomeDomain` slot. -/
def handleHomeDomain (so : SetOptions) : SetOptions × Option GoStr :=
  if so.HomeDomain ≠ [] then
    if so.HomeDomain.length > 32 then (so, some homeDomainTooLongMsg)
    else ({ so with xdrOp := { so.xdrOp with HomeDomain := some so.HomeDomain } }, none)
  else (so, none)

/-- The three ways `handleSigner` can finish: a normal return with the updated
builder, a normal return of an address error, or a runtime panic. -/
inductive SignerStep
  | ok (so : SetOptions)
  | err (so : SetOptions) (e : GoStr)
  | panic (msg : GoStr)

/-- `handleSigner`: when the signer pair differs from the zero value
`Signer{}`, first read `*so.Signer.Weight` (a nil-pointer dereference panics
when the weight is unset), then resolve the address; on codec failure return
the error, otherwise store the encoded pair in the `Signer` slot. -/
def handleSigner (resolve : Codec) (so : SetOptions) : SignerStep :=
  if so.Signer ≠ Signer.zero then
    match so.Signer.Weight with
    | none => .panic nilDerefMsg
    | some weight =>
        match resolve so.Signer.Address with
        | .error e => .err so e
        | .ok key => .ok { so with xdrOp := { so.xdrOp with Signer := some ⟨key, weight⟩ } }
  else .ok so

/-- `BuildXDR`: run the field handlers in the order of the source, abort with
the first wrapped error (returning the zero `xdr.Operation`), and on success
wrap the accumulated record in an operation body.  The pair returned is
`(the possibly mutated builder, the outcome)`. -/
def BuildXDR (resolve : Codec) (so : SetOptions) : SetOptions × Outcome :=
  match handleInflation resolve so with
  | (s1, some e) => (s1, .ret Operation.zero (some (wrapErr inflationWrapMsg e)))
  | (s1, none) =>
    match handleHomeDomain (handleHighThreshold (handleMediumThreshold (handleLowThreshold
        (handleMasterWeight (handleSetFlags (handleClearFlags s1)))))) with
    | (s2, some e) => (s2, .ret Operation.zero (some (wrapErr homeDomainWrapMsg e)))
    | (s2, none) =>
      match handleSigner resolve s2 with
      | .panic m => (s2, .panic m)
      | .err s3 e => (s3, .ret Operation.zero (some (wrapErr signerWrapMsg e)))
      | .ok s3 => (s3, .ret ⟨NewOperationBody s3.xdrOp⟩ none)

/-- The record payload of a build, `none` unless the build succeeded. -/
def buildPayload (resolve : Codec) (so : SetOptions) : Option SetOptionsOp :=
  (BuildXDR resolve so).2.payload

/-- The combined effect on the record of the six infallible handlers (clear
flags, set flags, master weight, the three thresholds), as one function; the
chain of handler calls inside `BuildXDR` is proved equal to it below. -/
def applyPure (so : SetOptions) (o : SetOptionsOp) : SetOptionsOp :=
  { o with
    ClearFlags := if so.ClearAuthorization.length > 0 then
        some (mergeFlags so.ClearAuthorization) else o.ClearFlags,
    SetFlags := if so.SetAuthorization.length > 0 then
        some (mergeFlags so.SetAuthorization) else o.SetFlags,
    MasterWeight := if so.MasterWeight.isSome then so.MasterWeight else o.MasterWeight,
    LowThreshold := if so.LowThreshold.isSome then so.LowThreshold else o.LowThreshold,
    MedThreshold := if so.MediumThreshold.isSome then so.MediumThreshold else o.MedThreshold,
    HighThreshold := if so.HighThreshold.isSome then so.HighThreshold else o.HighThreshold }

/-- A fixed canonical textual address, used to evaluate the development at
concrete inputs. -/
def sampleAddr : GoStr := ("GDQNY3PBOJOKYZSRMK2S7LHHGWZIUISD4QORETLMXEWXBI7KFZZMKTL3").toList

/-- The binary key the sample codec resolves `sampleAddr` to. -/
def sampleKey : AccountId := ⟨("sample-binary-key").toList⟩

/-- A concrete address codec for evaluating witnesses: it accepts the one
canonical address `sampleAddr` and rejects every other input. -/
def sampleCodec : Codec := fun s =>
  if s = sampleAddr then .ok sampleKey else .error (("invalid address").toList)

/-- A sample request exercising several optional fields at once, used to
evaluate the development at a concrete input. -/
def sampleReq : SetOptions :=
  { SetOptions.fresh with
      InflationDestination := sampleAddr,
      SetAuthorization := [1, 2],
      MasterWeight := some 0,
      HomeDomain := ("example.com").toList,
      Signer := ⟨sampleAddr, some 2⟩ }

/-- The record `BuildXDR` produces for `sampleReq` under `sampleCodec`. -/
def sampleRec : SetOptionsOp :=
  { InflationDest := some sampleKey, ClearFlags := none, SetFlags := some 3,
    MasterWeight := some 0, LowThreshold := none, MedThreshold := none,
    HighThreshold := none, HomeDomain := some (("example.com").toList),
    Signer := some ⟨sampleKey, 2⟩ }

lemma foldl_lor_acc (l : List Uint32) (acc : Uint32) :
    l.foldl (fun flags flag => flags ||| flag % w32) acc = acc ||| mergeFlags l := by
  induction l generalizing acc with
  | nil => simp [mergeFlags]
  | cons x xs ih =>
      simp only [List.foldl_cons, mergeFlags, Nat.zero_or]
      rw [ih, ih (x % w32), Nat.lor_assoc]

lemma mergeFlags_cons (x : Uint32) (l : List Uint32) :
    mergeFlags (x :: l) = x % w32 ||| mergeFlags l := by
  simp only [mergeFlags, List.foldl_cons, Nat.zero_or]
  exact foldl_lor_acc l (x % w32)

lemma mergeFlags_perm {l l' : List Uint32} (h : l.Perm l') : mergeFlags l = mergeFlags l' := by
  induction h with
  | nil => rfl
  | cons x h ih => rw [mergeFlags_cons, mergeFlags_cons, ih]
  | swap x y l =>
      rw [mergeFlags_cons, mergeFlags_cons, mergeFlags_cons, mergeFlags_cons,
        ← Nat.lor_assoc, ← Nat.lor_assoc, Nat.lor_comm (y % w32) (x % w32)]
  | trans _ _ ih₁ ih₂ => rw [ih₁, ih₂]

lemma mergeFlags_lor_mem {x : Uint32} {l : List Uint32} (h : x ∈ l) :
    x % w32 ||| mergeFlags l = mergeFlags l := by
  induction l with
  | nil => cases h
  | cons a l ih =>
      rw [mergeFlags_cons]
      rcases List.mem_cons.mp h with rfl | h
      · rw [← Nat.lor_assoc, Nat.or_self]
      · rw [← Nat.lor_assoc, Nat.lor_comm (x % w32) (a % w32), Nat.lor_assoc, ih h]

lemma mergeFlags_dup {x : Uint32} {l : List Uint32} (h : x ∈ l) :
    mergeFlags (x :: l) = mergeFlags l := by
  rw [mergeFlags_cons, mergeFlags_lor_mem h]

lemma mergeFlags_foldr (l : List Uint32) :
    mergeFlags l = l.foldr (fun x m => x % w32 ||| m) 0 := by
  induction l with
  | nil => rfl
  | cons x l ih => rw [mergeFlags_cons, ih, List.foldr_cons]

/-- C1: the merged mask stored by the set-flags and clear-flags handlers of
`BuildXDR` is the bitwise OR of the values in the sequence; the merge is
invariant under permutation and under repeating an element already present,
and values outside the documented flag enumeration pass through unchanged:
`merge [1,2,4] = merge [4,2,1] = merge [1,1,2,4,2,4] = 7`, `merge [3,3,3] = 3`. -/
theorem C1_merge_bitwise_or :
    (∀ so : SetOptions, so.SetAuthorization ≠ [] →
      (handleSetFlags so).xdrOp.SetFlags =
        some (so.SetAuthorization.foldr (fun x m => x % w32 ||| m) 0))
    ∧ (∀ so : SetOptions, so.ClearAuthorization ≠ [] →
      (handleClearFlags so).xdrOp.ClearFlags =
        some (so.ClearAuthorization.foldr (fun x m => x % w32 ||| m) 0))
    ∧ (∀ l l' : List Uint32, l.Perm l' → mergeFlags l = mergeFlags l')
    ∧ (∀ (x : Uint32) (l : List Uint32), x ∈ l → mergeFlags (x :: l) = mergeFlags l)
    ∧ mergeFlags [1, 2, 4] = 7 ∧ mergeFlags [4, 2, 1] = 7
    ∧ mergeFlags [1, 1, 2, 4, 2, 4] = 7 ∧ mergeFlags [3, 3, 3] = 3 := by
  refine ⟨?_, ?_, fun l l' h => mergeFlags_perm h, fun x l h => mergeFlags_dup h,
    by decide, by decide, by decide, by decide⟩
  · intro so h
    have h' : 0 < so.SetAuthorization.length := List.length_pos.mpr h
    simp [handleSetFlags, h', mergeFlags_foldr]
  · intro so h
    have h' : 0 < so.ClearAuthorization.length := List.length_pos.mpr h
    simp [handleClearFlags, h', mergeFlags_foldr]

/-- Witness for C1: the merge evaluated at the concrete inputs of the claim. -/
theorem C1_merge_bitwise_or_witness :
    (({ SetOptions.fresh with SetAuthorization := [1, 2, 4] } : SetOptions).SetAuthorization ≠ []
      ∧ (handleSetFlags { SetOptions.fresh with SetAuthorization := [1, 2, 4] }).xdrOp.SetFlags =
          some (([1, 2, 4] : List Uint32).foldr (fun x m => x % w32 ||| m) 0))
    ∧ (([1, 2, 4] : List Uint32).Perm [4, 2, 1] ∧ mergeFlags [1, 2, 4] = mergeFlags [4, 2, 1])
    ∧ ((2 : Uint32) ∈ ([2, 4] : List Uint32) ∧ mergeFlags (2 :: [2, 4]) = mergeFlags [2, 4]) := by
  refine ⟨⟨by decide, C1_merge_bitwise_or.1 _ (by decide)⟩,
    ⟨by decide, C1_merge_bitwise_or.2.2.1 _ _ (by decide)⟩,
    ⟨by decide, C1_merge_bitwise_or.2.2.2.1 2 [2, 4] (by decide)⟩⟩

lemma handleClearFlags_eq (so : SetOptions) :
    handleClearFlags so = { so with xdrOp := { so.xdrOp with ClearFlags :=
      (if so.ClearAuthorization.length > 0 then some (mergeFlags so.ClearAuthorization)
      else so.xdrOp.ClearFlags) } } := by
  unfold handleClearFlags
  split <;> rename_i h <;> simp [h]

lemma handleSetFlags_eq (so : SetOptions) :
    handleSetFlags so = { so with xdrOp := { so.xdrOp with SetFlags :=
      (if so.SetAuthorization.length > 0 then some (mergeFlags so.SetAuthorization)
      else so.xdrOp.SetFlags) } } := by
  unfold handleSetFlags
  split <;> rename_i h <;> simp [h]

lemma handleMasterWeight_eq (so : SetOptions) :
    handleMasterWeight so = { so with xdrOp := { so.xdrOp with MasterWeight :=
      if so.MasterWeight.isSome then so.MasterWeight else so.xdrOp.MasterWeight } } := by
  unfold handleMasterWeight
  split <;> rename_i h <;> simp [h]

lemma handleLowThreshold_eq (so : SetOptions) :
    handleLowThreshold so = { so with xdrOp := { so.xdrOp with LowThreshold :=
      if so.LowThreshold.isSome then so.LowThreshold else so.xdrOp.LowThreshold } } := by
  unfold handleLowThreshold
  split <;> rename_i h <;> simp [h]

lemma handleMediumThreshold_eq (so : SetOptions) :
    handleMediumThreshold so = { so with xdrOp := { so.xdrOp with MedThreshold :=
      if so.MediumThreshold.isSome then so.MediumThreshold else so.xdrOp.MedThreshold } } := by
  unfold handleMediumThreshold
  split <;> rename_i h <;> simp [h]

lemma handleHighThreshold_eq (so : SetOptions) :
    handleHighThreshold so = { so with xdrOp := { so.xdrOp with HighThreshold :=
      if so.HighThreshold.isSome then so.HighThreshold else so.xdrOp.HighThreshold } } := by
  unfold handleHighThreshold
  split <;> rename_i h <;> simp [h]

lemma pureChain_eq (so : SetOptions) :
    handleHighThreshold (handleMediumThreshold (handleLowThreshold (handleMasterWeight
      (handleSetFlags (handleClearFlags so))))) =
    { so with xdrOp := applyPure so so.xdrOp } := by
  rw [handleClearFlags_eq, handleSetFlags_eq, handleMasterWeight_eq, handleLowThreshold_eq,
    handleMediumThreshold_eq, handleHighThreshold_eq]
  rfl

lemma mergeFlags_zero {l : List Uint32} (h0 : ∀ x ∈ l, x = 0) : mergeFlags l = 0 := by
  induction l with
  | nil => rfl
  | cons x l ih =>
      rw [mergeFlags_cons, h0 x (List.mem_cons_self x l), ih fun y hy => h0 y (List.mem_cons_of_mem x hy)]
      rfl

lemma handleInflation_empty (resolve : Codec) (so : SetOptions)
    (h : so.InflationDestination = []) : handleInflation resolve so = (so, none) := by
  unfold handleInflation
  simp [h]

lemma handleInflation_err (resolve : Codec) (so : SetOptions) (e : GoStr)
    (h1 : so.InflationDestination ≠ [])
    (h2 : resolve so.InflationDestination = .error e) :
    handleInflation resolve so = (so, some e) := by
  unfold handleInflation
  simp [h1, h2]

lemma handleInflation_ok (resolve : Codec) (so : SetOptions) (a : AccountId)
    (h1 : so.InflationDestination ≠ [])
    (h2 : resolve so.InflationDestination = .ok a) :
    handleInflation resolve so =
      ({ so with destAccountID := a,
                 xdrOp := { so.xdrOp with InflationDest := some a } }, none) := by
  unfold handleInflation
  simp [h1, h2]

lemma handleHomeDomain_empty (so : SetOptions) (h : so.HomeDomain = []) :
    handleHomeDomain so = (so, none) := by
  unfold handleHomeDomain
  simp [h]

lemma handleHomeDomain_long (so : SetOptions) (h : so.HomeDomain.length > 32) :
    handleHomeDomain so = (so, some homeDomainTooLongMsg) := by
  have hne : so.HomeDomain ≠ [] := by
    intro he
    rw [he] at h
    exact absurd h (by decide)
  unfold handleHomeDomain
  simp [hne, h]

lemma handleHomeDomain_ok (so : SetOptions) (hne : so.HomeDomain ≠ [])
    (hlen : ¬ so.HomeDomain.length > 32) :
    handleHomeDomain so =
      ({ so with xdrOp := { so.xdrOp with HomeDomain := some so.HomeDomain } }, none) := by
  unfold handleHomeDomain
  simp [hne, hlen]

lemma handleSigner_default (resolve : Codec) (so : SetOptions) (h : so.Signer = Signer.zero) :
    handleSigner resolve so = .ok so := by
  unfold handleSigner
  simp [h]

lemma handleSigner_nilWeight (resolve : Codec) (so : SetOptions)
    (h1 : so.Signer ≠ Signer.zero) (h2 : so.Signer.Weight = none) :
    handleSigner resolve so = .panic nilDerefMsg := by
  unfold handleSigner
  simp [h1, h2]

lemma handleSigner_err (resolve : Codec) (so : SetOptions) (w : Uint32) (e : GoStr)
    (h1 : so.Signer ≠ Signer.zero) (h2 : so.Signer.Weight = some w)
    (h3 : resolve so.Signer.Address = .error e) :
    handleSigner resolve so = .err so e := by
  unfold handleSigner
  simp [h1, h2, h3]

lemma handleSigner_ok (resolve : Codec) (so : SetOptions) (w : Uint32) (k : AccountId)
    (h1 : so.Signer ≠ Signer.zero) (h2 : so.Signer.Weight = some w)
    (h3 : resolve so.Signer.Address = .ok k) :
    handleSigner resolve so =
      .ok { so with xdrOp := { so.xdrOp with Signer := some ⟨k, w⟩ } } := by
  unfold handleSigner
  simp [h1, h2, h3]

/-- C2: an empty set-authorization (resp. clear-authorization) sequence leaves
the corresponding slot of the produced record absent, while a non-empty
all-zero sequence yields a present slot holding mask 0; the two outcomes are
distinguishable in the record (`none` versus `some 0`). -/
theorem C2_empty_vs_zero_flags (resolve : Codec) (l : List Uint32)
    (h0 : ∀ x ∈ l, x = 0) (hne : l ≠ []) :
    buildPayload resolve { SetOptions.fresh with SetAuthorization := l } =
      some { SetOptionsOp.zero with SetFlags := some 0 }
    ∧ buildPayload resolve { SetOptions.fresh with ClearAuthorization := l } =
      some { SetOptionsOp.zero with ClearFlags := some 0 }
    ∧ buildPayload resolve SetOptions.fresh = some SetOptionsOp.zero := by
  have hlen : 0 < l.length := List.length_pos.mpr hne
  have hm := mergeFlags_zero h0
  refine ⟨?_, ?_, ?_⟩ <;>
    simp [buildPayload, BuildXDR, handleInflation, handleHomeDomain, handleSigner,
      handleClearFlags, handleSetFlags, handleMasterWeight, handleLowThreshold,
      handleMediumThreshold, handleHighThreshold, SetOptions.fresh, Signer.zero,
      SetOptionsOp.zero, AccountId.zero, NewOperationBody, Outcome.payload, hm, hlen]

/-- Witness for C2: the claim evaluated at the sequence `[0, 0]` and the
sample codec. -/
theorem C2_empty_vs_zero_flags_witness :
    (∀ x ∈ ([0, 0] : List Uint32), x = 0) ∧ ([0, 0] : List Uint32) ≠ []
    ∧ buildPayload sampleCodec { SetOptions.fresh with SetAuthorization := [0, 0] } =
        some { SetOptionsOp.zero with SetFlags := some 0 }
    ∧ buildPayload sampleCodec { SetOptions.fresh with ClearAuthorization := [0, 0] } =
        some { SetOptionsOp.zero with ClearFlags := some 0 }
    ∧ buildPayload sampleCodec SetOptions.fresh = some SetOptionsOp.zero := by
  have h := C2_empty_vs_zero_flags sampleCodec [0, 0] (by decide) (by decide)
  exact ⟨by decide, by decide, h.1, h.2.1, h.2.2⟩

lemma ite_isSome (o : Option Uint32) : (if o.isSome = true then o else none) = o := by
  cases o <;> simp

/-- C3: for every request on which `BuildXDR` succeeds, each optional slot of
the produced record is present exactly when the corresponding request field
was non-empty (for strings and flag sequences), non-nil (for the weight and
thresholds), or non-default (for the signer pair) at build time; no slot is
filled with a synthesized default. -/
theorem C3_presence_iff (resolve : Codec) (so : SetOptions) (o : SetOptionsOp)
    (hinit : so.xdrOp = SetOptionsOp.zero)
    (hok : buildPayload resolve so = some o) :
    (o.InflationDest.isSome ↔ so.InflationDestination ≠ [])
    ∧ (o.SetFlags.isSome ↔ so.SetAuthorization ≠ [])
    ∧ (o.ClearFlags.isSome ↔ so.ClearAuthorization ≠ [])
    ∧ (o.MasterWeight.isSome ↔ so.MasterWeight.isSome)
    ∧ (o.LowThreshold.isSome ↔ so.LowThreshold.isSome)
    ∧ (o.MedThreshold.isSome ↔ so.MediumThreshold.isSome)
    ∧ (o.HighThreshold.isSome ↔ so.HighThreshold.isSome)
    ∧ (o.HomeDomain.isSome ↔ so.HomeDomain ≠ [])
    ∧ (o.Signer.isSome ↔ so.Signer ≠ Signer.zero) := by
  unfold buildPayload BuildXDR handleInflation handleHomeDomain handleSigner at hok
  simp only [pureChain_eq] at hok
  by_cases hinf : so.InflationDestination = []
  · simp only [hinf, ne_eq, not_true_eq_false, if_false, ite_false] at hok
    by_cases hhd : so.HomeDomain = []
    · simp only [hhd, ne_eq, not_true_eq_false, if_false, ite_false] at hok
      by_cases hs : so.Signer = Signer.zero
      · simp [hs, Outcome.payload, NewOperationBody] at hok
        subst hok
        simp [applyPure, hinit, SetOptionsOp.zero, hinf, hhd, hs, List.length_pos, ite_isSome]
      · rcases hw : so.Signer.Weight with _ | w
        · simp [hs, hw, Outcome.payload] at hok
        · rcases hra : resolve so.Signer.Address with e | k
          · simp [hs, hw, hra, Outcome.payload] at hok
          · simp [hs, hw, hra, Outcome.payload, NewOperationBody] at hok
            subst hok
            simp [applyPure, hinit, SetOptionsOp.zero, hinf, hhd, hs, List.length_pos, ite_isSome]
    · by_cases hlen : so.HomeDomain.length > 32
      · simp [hhd, hlen, Outcome.payload] at hok
      · simp only [hhd, hlen, ne_eq, not_false_eq_true, if_true, ite_true, if_false, ite_false] at hok
        by_cases hs : so.Signer = Signer.zero
        · simp [hs, Outcome.payload, NewOperationBody] at hok
          subst hok
          simp [applyPure, hinit, SetOptionsOp.zero, hinf, hhd, hs, List.length_pos, ite_isSome]
        · rcases hw : so.Signer.Weight with _ | w
          · simp [hs, hw, Outcome.payload] at hok
          · rcases hra : resolve so.Signer.Address with e | k
            · simp [hs, hw, hra, Outcome.payload] at hok
            · simp [hs, hw, hra, Outcome.payload, NewOperationBody] at hok
              subst hok
              simp [applyPure, hinit, SetOptionsOp.zero, hinf, hhd, hs, List.length_pos, ite_isSome]
  · rcases hres : resolve so.InflationDestination with e | a
    · simp [hinf, hres, Outcome.payload] at hok
    · simp only [hinf, hres, ne_eq, not_false_eq_true, if_true, ite_true] at hok
      by_cases hhd : so.HomeDomain = []
      · simp only [hhd, ne_eq, not_true_eq_false, if_false, ite_false] at hok
        by_cases hs : so.Signer = Signer.zero
        · simp [hs, Outcome.payload, NewOperationBody] at hok
          subst hok
          simp [applyPure, hinit, SetOptionsOp.zero, hinf, hhd, hs, List.length_pos, ite_isSome]
        · rcases hw : so.Signer.Weight with _ | w
          · simp [hs, hw, Outcome.payload] at hok
          · rcases hra : resolve so.Signer.Address with e | k
            · simp [hs, hw, hra, Outcome.payload] at hok
            · simp [hs, hw, hra, Outcome.payload, NewOperationBody] at hok
              subst hok
              simp [applyPure, hinit, SetOptionsOp.zero, hinf, hhd, hs, List.length_pos, ite_isSome]
      · by_cases hlen : so.HomeDomain.length > 32
        · simp [hhd, hlen, Outcome.payload] at hok
        · simp only [hhd, hlen, ne_eq, not_false_eq_true, if_true, ite_true, if_false,
            ite_false] at hok
          by_cases hs : so.Signer = Signer.zero
          · simp [hs, Outcome.payload, NewOperationBody] at hok
            subst hok
            simp [applyPure, hinit, SetOptionsOp.zero, hinf, hhd, hs, List.length_pos, ite_isSome]
          · rcases hw : so.Signer.Weight with _ | w
            · simp [hs, hw, Outcome.payload] at hok
            · rcases hra : resolve so.Signer.Address with e | k
              · simp [hs, hw, hra, Outcome.payload] at hok
              · simp [hs, hw, hra, Outcome.payload, NewOperationBody] at hok
                subst hok
                simp [applyPure, hinit, SetOptionsOp.zero, hinf, hhd, hs, List.length_pos,
                  ite_isSome]

/-- Witness for C3: the invariant evaluated on `sampleReq`, a request with
inflation destination, set-flags, a zero master weight, a home domain and a
signer all set. -/
theorem C3_presence_iff_witness :
    sampleReq.xdrOp = SetOptionsOp.zero
    ∧ buildPayload sampleCodec sampleReq = some sampleRec
    ∧ ((sampleRec.InflationDest.isSome ↔ sampleReq.InflationDestination ≠ [])
      ∧ (sampleRec.SetFlags.isSome ↔ sampleReq.SetAuthorization ≠ [])
      ∧ (sampleRec.ClearFlags.isSome ↔ sampleReq.ClearAuthorization ≠ [])
      ∧ (sampleRec.MasterWeight.isSome ↔ sampleReq.MasterWeight.isSome)
      ∧ (sampleRec.LowThreshold.isSome ↔ sampleReq.LowThreshold.isSome)
      ∧ (sampleRec.MedThreshold.isSome ↔ sampleReq.MediumThreshold.isSome)
      ∧ (sampleRec.HighThreshold.isSome ↔ sampleReq.HighThreshold.isSome)
      ∧ (sampleRec.HomeDomain.isSome ↔ sampleReq.HomeDomain ≠ [])
      ∧ (sampleRec.Signer.isSome ↔ sampleReq.Signer ≠ Signer.zero)) :=
  ⟨rfl, by decide, C3_presence_iff sampleCodec sampleReq sampleRec rfl (by decide)⟩


/-- C4: a master weight or threshold explicitly provided as `some 0` appears
in the produced record as a present slot holding 0, an unset (`none`) weight
or threshold appears as an absent slot, and in general each of the four
optional integers is forwarded unchanged, with no range re-validation. -/
theorem C4_threshold_forwarding (resolve : Codec) (so : SetOptions) (o : SetOptionsOp)
    (hinit : so.xdrOp = SetOptionsOp.zero)
    (hok : buildPayload resolve so = some o) :
    o.MasterWeight = so.MasterWeight
    ∧ o.LowThreshold = so.LowThreshold
    ∧ o.MedThreshold = so.MediumThreshold
    ∧ o.HighThreshold = so.HighThreshold := by
  unfold buildPayload BuildXDR handleInflation handleHomeDomain handleSigner at hok
  simp only [pureChain_eq] at hok
  by_cases hinf : so.InflationDestination = []
  · simp only [hinf, ne_eq, not_true_eq_false, if_false, ite_false] at hok
    by_cases hhd : so.HomeDomain = []
    · simp only [hhd, ne_eq, not_true_eq_false, if_false, ite_false] at hok
      by_cases hs : so.Signer = Signer.zero
      · simp [hs, Outcome.payload, NewOperationBody] at hok
        subst hok
        simp [applyPure, hinit, SetOptionsOp.zero, ite_isSome]
      · rcases hw : so.Signer.Weight with _ | w
        · simp [hs, hw, Outcome.payload] at hok
        · rcases hra : resolve so.Signer.Address with e | k
          · simp [hs, hw, hra, Outcome.payload] at hok
          · simp [hs, hw, hra, Outcome.payload, NewOperationBody] at hok
            subst hok
            simp [applyPure, hinit, SetOptionsOp.zero, ite_isSome]
    · by_cases hlen : so.HomeDomain.length > 32
      · simp [hhd, hlen, Outcome.payload] at hok
      · simp only [hhd, hlen, ne_eq, not_false_eq_true, if_true, ite_true, if_false, ite_false] at hok
        by_cases hs : so.Signer = Signer.zero
        · simp [hs, Outcome.payload, NewOperationBody] at hok
          subst hok
          simp [applyPure, hinit, SetOptionsOp.zero, ite_isSome]
        · rcases hw : so.Signer.Weight with _ | w
          · simp [hs, hw, Outcome.payload] at hok
          · rcases hra : resolve so.Signer.Address with e | k
            · simp [hs, hw, hra, Outcome.payload] at hok
            · simp [hs, hw, hra, Outcome.payload, NewOperationBody] at hok
              subst hok
              simp [applyPure, hinit, SetOptionsOp.zero, ite_isSome]
  · rcases hres : resolve so.InflationDestination with e | a
    · simp [hinf, hres, Outcome.payload] at hok
    · simp only [hinf, hres, ne_eq, not_false_eq_true, if_true, ite_true] at hok
      by_cases hhd : so.HomeDomain = []
      · simp only [hhd, ne_eq, not_true_eq_false, if_false, ite_false] at hok
        by_cases hs : so.Signer = Signer.zero
        · simp [hs, Outcome.payload, NewOperationBody] at hok
          subst hok
          simp [applyPure, hinit, SetOptionsOp.zero, ite_isSome]
        · rcases hw : so.Signer.Weight with _ | w
          · simp [hs, hw, Outcome.payload] at hok
          · rcases hra : resolve so.Signer.Address with e | k
            · simp [hs, hw, hra, Outcome.payload] at hok
            · simp [hs, hw, hra, Outcome.payload, NewOperationBody] at hok
              subst hok
              simp [applyPure, hinit, SetOptionsOp.zero, ite_isSome]
      · by_cases hlen : so.HomeDomain.length > 32
        · simp [hhd, hlen, Outcome.payload] at hok
        · simp only [hhd, hlen, ne_eq, not_false_eq_true, if_true, ite_true, if_false,
            ite_false] at hok
          by_cases hs : so.Signer = Signer.zero
          · simp [hs, Outcome.payload, NewOperationBody] at hok
            subst hok
            simp [applyPure, hinit, SetOptionsOp.zero, ite_isSome]
          · rcases hw : so.Signer.Weight with _ | w
            · simp [hs, hw, Outcome.payload] at hok
            · rcases hra : resolve so.Signer.Address with e | k
              · simp [hs, hw, hra, Outcome.payload] at hok
              · simp [hs, hw, hra, Outcome.payload, NewOperationBody] at hok
                subst hok
                simp [applyPure, hinit, SetOptionsOp.zero, ite_isSome]

/-- Witness for C4: `sampleReq` carries an explicit zero master weight, which
is forwarded as a present zero slot, while the unset thresholds stay absent. -/
theorem C4_threshold_forwarding_witness :
    sampleReq.xdrOp = SetOptionsOp.zero
    ∧ buildPayload sampleCodec sampleReq = some sampleRec
    ∧ (sampleRec.MasterWeight = sampleReq.MasterWeight
      ∧ sampleRec.LowThreshold = sampleReq.LowThreshold
      ∧ sampleRec.MedThreshold = sampleReq.MediumThreshold
      ∧ sampleRec.HighThreshold = sampleReq.HighThreshold) :=
  ⟨rfl, by decide, C4_threshold_forwarding sampleCodec sampleReq sampleRec rfl (by decide)⟩

/-- C5: on an otherwise-fresh request, `BuildXDR` succeeds on a home domain of
exactly 32 bytes (Go `len` counts bytes of the string) and stores it; it fails
with the wrapped home-domain length error on 33 or more; an empty home domain
leaves the slot absent. -/
theorem C5_home_domain_length (resolve : Codec) (hd : GoStr) :
    (hd.length = 32 →
      (BuildXDR resolve { SetOptions.fresh with HomeDomain := hd }).2 =
        .ret ⟨some { SetOptionsOp.zero with HomeDomain := some hd }⟩ none)
    ∧ (hd.length ≥ 33 →
      (BuildXDR resolve { SetOptions.fresh with HomeDomain := hd }).2 =
        .ret Operation.zero (some (wrapErr homeDomainWrapMsg homeDomainTooLongMsg)))
    ∧ (BuildXDR resolve { SetOptions.fresh with HomeDomain := [] }).2 =
        .ret ⟨some SetOptionsOp.zero⟩ none := by
  refine ⟨fun h => ?_, fun h => ?_, ?_⟩
  · have hne : hd ≠ [] := by
      intro he
      rw [he] at h
      simp at h
    have hlen : ¬ hd.length > 32 := by omega
    simp [BuildXDR, handleInflation, handleHomeDomain, handleSigner, handleClearFlags,
      handleSetFlags, handleMasterWeight, handleLowThreshold, handleMediumThreshold,
      handleHighThreshold, SetOptions.fresh, Signer.zero, SetOptionsOp.zero, AccountId.zero,
      NewOperationBody, hne, hlen]
  · have hlen : hd.length > 32 := by omega
    have hne : hd ≠ [] := by
      intro he
      rw [he] at h
      simp at h
    simp [BuildXDR, handleInflation, handleHomeDomain, handleSigner, handleClearFlags,
      handleSetFlags, handleMasterWeight, handleLowThreshold, handleMediumThreshold,
      handleHighThreshold, SetOptions.fresh, Signer.zero, SetOptionsOp.zero, AccountId.zero,
      NewOperationBody, hne, hlen]
  · simp [BuildXDR, handleInflation, handleHomeDomain, handleSigner, handleClearFlags,
      handleSetFlags, handleMasterWeight, handleLowThreshold, handleMediumThreshold,
      handleHighThreshold, SetOptions.fresh, Signer.zero, SetOptionsOp.zero, AccountId.zero,
      NewOperationBody]

/-- Witness for C5: evaluated at domains of exactly 32 and exactly 33 bytes. -/
theorem C5_home_domain_length_witness :
    ((List.replicate 32 'a').length = 32
      ∧ (BuildXDR sampleCodec { SetOptions.fresh with HomeDomain := List.replicate 32 'a' }).2 =
          .ret ⟨some { SetOptionsOp.zero with HomeDomain := some (List.replicate 32 'a') }⟩ none)
    ∧ ((List.replicate 33 'a').length ≥ 33
      ∧ (BuildXDR sampleCodec { SetOptions.fresh with HomeDomain := List.replicate 33 'a' }).2 =
          .ret Operation.zero (some (wrapErr homeDomainWrapMsg homeDomainTooLongMsg))) :=
  ⟨⟨by decide, (C5_home_domain_length sampleCodec (List.replicate 32 'a')).1 (by decide)⟩,
   ⟨by decide, (C5_home_domain_length sampleCodec (List.replicate 33 'a')).2.1 (by decide)⟩⟩

/-- C6: the first validation failure in the fixed processing order (inflation
destination, then home domain, then signer) aborts the build, wrapped with the
failing field's message, and the returned operation value is the zero record;
in particular an invalid inflation destination wins over any over-long home
domain, and a home-domain failure wins over any signer failure. -/
theorem C6_first_error_wins (resolve : Codec) (so : SetOptions) :
    (∀ e, so.InflationDestination ≠ [] → resolve so.InflationDestination = .error e →
      BuildXDR resolve so = (so, .ret Operation.zero (some (wrapErr inflationWrapMsg e))))
    ∧ (so.InflationDestination = [] → so.HomeDomain.length > 32 →
      (BuildXDR resolve so).2 =
        .ret Operation.zero (some (wrapErr homeDomainWrapMsg homeDomainTooLongMsg)))
    ∧ (∀ e w, so.InflationDestination = [] → ¬ so.HomeDomain.length > 32 →
      so.Signer ≠ Signer.zero → so.Signer.Weight = some w →
      resolve so.Signer.Address = .error e →
      (BuildXDR resolve so).2 = .ret Operation.zero (some (wrapErr signerWrapMsg e))) := by
  refine ⟨fun e hinf hres => ?_, fun hinf hlen => ?_, fun e w hinf hlen hs hw hra => ?_⟩
  · unfold BuildXDR
    rw [handleInflation_err resolve so e hinf hres]
  · have hne : so.HomeDomain ≠ [] := by
      intro he
      rw [he] at hlen
      simp at hlen
    unfold BuildXDR handleInflation handleHomeDomain
    simp only [pureChain_eq]
    simp [hinf, hne, hlen]
  · by_cases hne : so.HomeDomain = []
    · unfold BuildXDR handleInflation handleHomeDomain handleSigner
      simp only [pureChain_eq]
      simp [hinf, hne, hlen, hs, hw, hra]
    · unfold BuildXDR handleInflation handleHomeDomain handleSigner
      simp only [pureChain_eq]
      simp [hinf, hne, hlen, hs, hw, hra]

/-- Witness for C6: evaluated on a request whose inflation destination is
invalid while its home domain is also over-long (the inflation error wins), on
a request with only an over-long home domain, and on a request with only an
unresolvable signer. -/
theorem C6_first_error_wins_witness :
    ((("bad").toList ≠ ([] : GoStr)
      ∧ sampleCodec (("bad").toList) = .error (("invalid address").toList)
      ∧ BuildXDR sampleCodec
          { SetOptions.fresh with
              InflationDestination := ("bad").toList, HomeDomain := List.replicate 40 'a' } =
        ({ SetOptions.fresh with
             InflationDestination := ("bad").toList, HomeDomain := List.replicate 40 'a' },
          .ret Operation.zero (some (wrapErr inflationWrapMsg (("invalid address").toList))))))
    ∧ ((List.replicate 40 'a').length > 32
      ∧ (BuildXDR sampleCodec
          { SetOptions.fresh with
              HomeDomain := List.replicate 40 'a', Signer := ⟨("bad").toList, some 1⟩ }).2 =
          .ret Operation.zero (some (wrapErr homeDomainWrapMsg homeDomainTooLongMsg)))
    ∧ (BuildXDR sampleCodec
          { SetOptions.fresh with Signer := ⟨("bad").toList, some 1⟩ }).2 =
        .ret Operation.zero (some (wrapErr signerWrapMsg (("invalid address").toList))) := by
  refine ⟨⟨by decide, rfl, ?_⟩, ⟨by decide, ?_⟩, ?_⟩
  · exact (C6_first_error_wins sampleCodec _).1 (("invalid address").toList) (by decide) rfl
  · exact (C6_first_error_wins sampleCodec _).2.1 (by decide) (by decide)
  · exact (C6_first_error_wins sampleCodec _).2.2 (("invalid address").toList) 1 (by decide)
      (by decide) (by decide) (by decide) rfl

lemma buildXDR_homeDomain_too_long (resolve : Codec) (so : SetOptions)
    (hnoInfErr : (handleInflation resolve so).2 = none)
    (hlen : so.HomeDomain.length > 32) :
    (BuildXDR resolve so).2 =
      .ret Operation.zero (some (wrapErr homeDomainWrapMsg homeDomainTooLongMsg)) := by
  have hne : so.HomeDomain ≠ [] := by
    intro he
    rw [he] at hlen
    simp at hlen
  unfold BuildXDR handleInflation handleHomeDomain
  simp only [pureChain_eq]
  by_cases hinf : so.InflationDestination = []
  · simp [hinf, hne, hlen]
  · rcases hres : resolve so.InflationDestination with e | a
    · unfold handleInflation at hnoInfErr
      simp [hinf, hres] at hnoInfErr
    · simp [hinf, hres, hne, hlen]

/-- C7 counterexample: the error returned for an over-long home domain is one
fixed value — two offending domains of different measured lengths (33 and 40
bytes) produce identical errors, so the error does not carry the measured
length of the offending domain. -/
theorem C7_no_measured_length_counterexample :
    (BuildXDR sampleCodec { SetOptions.fresh with HomeDomain := List.replicate 33 'a' }).2 =
      (BuildXDR sampleCodec { SetOptions.fresh with HomeDomain := List.replicate 40 'a' }).2
    ∧ (BuildXDR sampleCodec { SetOptions.fresh with HomeDomain := List.replicate 33 'a' }).2 =
      .ret Operation.zero (some (wrapErr homeDomainWrapMsg homeDomainTooLongMsg)) :=
  ⟨by decide, by decide⟩

/-- C7 (amended): whenever the build fails because the home domain exceeds the
32-character bound, the returned error is the fixed wrapped message naming the
home-domain field and stating the 32-character limit; it does not include the
measured length. -/
theorem C7_fixed_too_long_error (resolve : Codec) (so : SetOptions)
    (hnoInfErr : (handleInflation resolve so).2 = none)
    (hlen : so.HomeDomain.length > 32) :
    (BuildXDR resolve so).2 =
      .ret Operation.zero (some (wrapErr homeDomainWrapMsg homeDomainTooLongMsg)) :=
  buildXDR_homeDomain_too_long resolve so hnoInfErr hlen

/-- Witness for the amended C7 at a 33-byte domain. -/
theorem C7_fixed_too_long_error_witness :
    (handleInflation sampleCodec
        { SetOptions.fresh with HomeDomain := List.replicate 33 'a' }).2 = none
    ∧ (List.replicate 33 'a').length > 32
    ∧ (BuildXDR sampleCodec { SetOptions.fresh with HomeDomain := List.replicate 33 'a' }).2 =
        .ret Operation.zero (some (wrapErr homeDomainWrapMsg homeDomainTooLongMsg)) :=
  ⟨by decide, by decide,
    C7_fixed_too_long_error sampleCodec _ (by decide) (by decide)⟩

/-- C9: the builder evaluated at a request whose signer pair has a non-empty
address and an unset (nil) weight.  `handleSigner` reads `*so.Signer.Weight`
before validating anything, so `BuildXDR` ends in a nil-pointer-dereference
runtime panic instead of returning a record or an error — the build is not
total on such requests. -/
theorem C9_nil_weight_panic :
    (BuildXDR sampleCodec { SetOptions.fresh with Signer := ⟨sampleAddr, none⟩ }).2 =
      .panic nilDerefMsg := by decide

/-- C10: a signer pair with an empty address but a present weight differs from
the zero pair, so the builder treats it as set, resolves the empty address,
and returns the wrapped signer address-resolution error instead of leaving the
signer slot absent. -/
theorem C10_empty_address_signer_error (resolve : Codec) (so : SetOptions) (w : Uint32)
    (e : GoStr)
    (hinf : so.InflationDestination = [])
    (hlen : ¬ so.HomeDomain.length > 32)
    (hsig : so.Signer = ⟨[], some w⟩)
    (hres : resolve [] = .error e) :
    (BuildXDR resolve so).2 = .ret Operation.zero (some (wrapErr signerWrapMsg e)) := by
  have hs : so.Signer ≠ Signer.zero := by
    rw [hsig]
    simp [Signer.zero]
  have hw : so.Signer.Weight = some w := by rw [hsig]
  have hra : resolve so.Signer.Address = .error e := by
    rw [hsig]
    exact hres
  by_cases hne : so.HomeDomain = [] <;>
  · unfold BuildXDR handleInflation handleHomeDomain handleSigner
    simp only [pureChain_eq]
    simp [hinf, hne, hlen, hs, hw, hra]

/-- Witness for C10: a signer with empty address and weight 5 under the sample
codec (which rejects the empty string). -/
theorem C10_empty_address_signer_error_witness :
    ({ SetOptions.fresh with Signer := ⟨[], some 5⟩ } : SetOptions).InflationDestination = []
    ∧ ¬ ({ SetOptions.fresh with
          Signer := ⟨[], some 5⟩ } : SetOptions).HomeDomain.length > 32
    ∧ sampleCodec [] = .error (("invalid address").toList)
    ∧ (BuildXDR sampleCodec { SetOptions.fresh with Signer := ⟨[], some 5⟩ }).2 =
        .ret Operation.zero (some (wrapErr signerWrapMsg (("invalid address").toList))) :=
  ⟨rfl, by decide, rfl,
    C10_empty_address_signer_error sampleCodec _ 5 (("invalid address").toList)
      rfl (by decide) rfl rfl⟩

lemma ite_absorb {α : Type} (c : Prop) [Decidable c] (x y : α) :
    (if c then x else (if c then x else y)) = if c then x else y := by
  split <;> simp_all

/-- C8: building twice from the same unmodified request is deterministic and
idempotent: re-running `BuildXDR` on the builder state returned by a first run
reproduces the first run's outcome and state exactly — in particular the
second call succeeds exactly when the first did, and on success both produce
the identical record. -/
theorem C8_idempotent (resolve : Codec) (so : SetOptions) :
    BuildXDR resolve (BuildXDR resolve so).1 = BuildXDR resolve so := by
  unfold BuildXDR handleInflation handleHomeDomain handleSigner
  simp only [pureChain_eq]
  by_cases hinf : so.InflationDestination = []
  · by_cases hhd : so.HomeDomain = []
    · by_cases hs : so.Signer = Signer.zero
      · simp [hinf, hhd, hs, applyPure, ite_absorb]
      · rcases hw : so.Signer.Weight with _ | w
        · simp [hinf, hhd, hs, hw, applyPure, ite_absorb]
        · rcases hra : resolve so.Signer.Address with e | k
          · simp [hinf, hhd, hs, hw, hra, applyPure, ite_absorb]
          · simp [hinf, hhd, hs, hw, hra, applyPure, ite_absorb]
    · by_cases hlen : so.HomeDomain.length > 32
      · simp [hinf, hhd, hlen, applyPure, ite_absorb]
      · by_cases hs : so.Signer = Signer.zero
        · simp [hinf, hhd, hlen, hs, applyPure, ite_absorb]
        · rcases hw : so.Signer.Weight with _ | w
          · simp [hinf, hhd, hlen, hs, hw, applyPure, ite_absorb]
          · rcases hra : resolve so.Signer.Address with e | k
            · simp [hinf, hhd, hlen, hs, hw, hra, applyPure, ite_absorb]
            · simp [hinf, hhd, hlen, hs, hw, hra, applyPure, ite_absorb]
  · rcases hres : resolve so.InflationDestination with e | a
    · simp [hinf, hres, applyPure, ite_absorb]
    · by_cases hhd : so.HomeDomain = []
      · by_cases hs : so.Signer = Signer.zero
        · simp [hinf, hres, hhd, hs, applyPure, ite_absorb]
        · rcases hw : so.Signer.Weight with _ | w
          · simp [hinf, hres, hhd, hs, hw, applyPure, ite_absorb]
          · rcases hra : resolve so.Signer.Address with e | k
            · simp [hinf, hres, hhd, hs, hw, hra, applyPure, ite_absorb]
            · simp [hinf, hres, hhd, hs, hw, hra, applyPure, ite_absorb]
      · by_cases hlen : so.HomeDomain.length > 32
        · simp [hinf, hres, hhd, hlen, applyPure, ite_absorb]
        · by_cases hs : so.Signer = Signer.zero
          · simp [hinf, hres, hhd, hlen, hs, applyPure, ite_absorb]
          · rcases hw : so.Signer.Weight with _ | w
            · simp [hinf, hres, hhd, hlen, hs, hw, applyPure, ite_absorb]
            · rcases hra : resolve so.Signer.Address with e | k
              · simp [hinf, hres, hhd, hlen, hs, hw, hra, applyPure, ite_absorb]
              · simp [hinf, hres, hhd, hlen, hs, hw, hra, applyPure, ite_absorb]

end Txnbuild
